import Mathlib

/-!
# Verification of the BM1398 ASIC driver (hashsource_antminer_x19)

Shallow embedding of the pure computations of
`src/hashsource_x19/src/bm1398_asic.c` together with proofs of the
specification's claims about them.

Bytes and 32-bit registers are modelled as `Nat` with explicit masking
(`&&& 0x1F`, `% 2^32`, ...) at the points where the C code truncates.
-/

namespace BM1398

/-! ## Command Codec: CRC5 (`bm1398_crc5`, bm1398_asic.c lines 41-55) -/

/-- Bit `i` of the byte stream `data`, MSB-first within each byte, byte-major
order: C expression `(data[i / 8] >> (7 - (i % 8))) & 1`. -/
def crc5_bit (data : List Nat) (i : Nat) : Nat :=
  (data.getD (i / 8) 0 >>> (7 - i % 8)) &&& 1

/-- Translation of `bm1398_crc5`: `crc` starts at `0x1F`; for each of the first
`bits` bits, branch on `(crc & 0x10) != (bit << 4)`, fold with polynomial
`0x05`, and mask with `crc &= 0x1F`.  (The intermediate `uint8_t` store is
`% 256`; composing it with the final `&&& 0x1F` gives `&&& 0x1F` directly.) -/
def bm1398_crc5 (data : List Nat) (bits : Nat) : Nat :=
  (List.range bits).foldl
    (fun crc i =>
      let bit := crc5_bit data i
      let next :=
        if crc &&& 0x10 ≠ bit <<< 4 then ((crc <<< 1) ||| bit) ^^^ 0x05
        else (crc <<< 1) ||| bit
      next &&& 0x1F)
    0x1F

/-- The 5-bit CRC exactly as the spec words it: start at `0x1F`; at each bit,
if the checksum's top (5th) bit differs from the incoming bit, shift left,
bring in the bit, and XOR with `0x05`, otherwise only shift left and bring in
the bit; mask to 5 bits after every step. -/
def crc5_spec (data : List Nat) (bits : Nat) : Nat :=
  (List.range bits).foldl
    (fun crc i =>
      let bit := crc5_bit data i
      let next :=
        if (crc >>> 4) &&& 1 ≠ bit then ((crc <<< 1) ||| bit) ^^^ 0x05
        else (crc <<< 1) ||| bit
      next &&& 0x1F)
    0x1F

/-! ## Chain-inactive frame (`bm1398_chain_inactive`, lines 358-368) -/

/-- The first four command bytes of the chain-inactive frame:
`CMD_PREAMBLE_CHAIN_INACTIVE (0x53)`, `CMD_LEN_ADDRESS (0x05)`, `0x00`, `0x00`. -/
def chain_inactive_cmd : List Nat := [0x53, 0x05, 0x00, 0x00]

/-- The full five-byte frame built by `bm1398_chain_inactive`:
`cmd[4] = bm1398_crc5(cmd, 32)` appended to the four command bytes. -/
def chain_inactive_frame : List Nat :=
  chain_inactive_cmd ++ [bm1398_crc5 chain_inactive_cmd 32]

/-! ## Frequency planner (`bm1398_set_frequency`, lines 988-1093) -/

/-- The four PLL divider register fields chosen by `bm1398_set_frequency`
(stored encodings: `refdiv`, `postdiv1`, `postdiv2` are value-minus-one,
`fbdiv` is direct). -/
structure PllDividers where
  refdiv_reg : Nat
  fbdiv_reg : Nat
  postdiv1_reg : Nat
  postdiv2_reg : Nat
  deriving DecidableEq

/-- Divider selection (lines 1038-1049): 525 MHz gets the verified set
`refdiv_reg=0, fbdiv=84, postdiv1_reg=1, postdiv2_reg=0`; every other target
logs a warning and falls back to the same set. -/
def pll_dividers (freq_mhz : Nat) : PllDividers :=
  if freq_mhz = 525 then ⟨0, 84, 1, 0⟩ else ⟨0, 84, 1, 0⟩

/-- `vco = 25.0f / refdiv_actual * fbdiv_reg` (line 1055), with
`refdiv_actual = refdiv_reg + 1`.  The float arithmetic is exact at these
magnitudes, so rationals model it faithfully. -/
def vco_mhz (freq_mhz : Nat) : ℚ :=
  25 / (((pll_dividers freq_mhz).refdiv_reg : ℚ) + 1) *
    ((pll_dividers freq_mhz).fbdiv_reg : ℚ)

/-- The error vocabulary the spec gives the frequency planner. -/
inductive FreqError where
  | frequencyOutOfRange
  deriving DecidableEq

/-- PLL register assembly and VCO range check (lines 1062-1087).  `.ok v`
means the function reaches the PLL0 register write with value `v`; `.error`
means it returns -1 before any PLL0 write.  Field packing: bits [2:0]
postdiv2, [6:4] refdiv, [13:8] postdiv1, [27:16] fbdiv, bit 30 set, bit 28
set only for the 2400-3200 MHz VCO sub-band. -/
def bm1398_set_frequency (freq_mhz : Nat) : Except FreqError Nat :=
  let c := pll_dividers freq_mhz
  let vco := vco_mhz freq_mhz
  let pll_value := 0x40000000 ||| (c.postdiv2_reg &&& 0x7) |||
      ((c.refdiv_reg &&& 0x7) <<< 4) ||| ((c.postdiv1_reg &&& 0x3f) <<< 8) |||
      ((c.fbdiv_reg &&& 0xfff) <<< 16)
  if 2400 ≤ vco ∧ vco ≤ 3200 then Except.ok (pll_value ||| 0x10000000)
  else if vco < 1600 ∨ 3200 < vco then Except.error FreqError.frequencyOutOfRange
  else Except.ok pll_value

/-! ## Baud planner (`bm1398_set_baud_rate`, lines 896-980) -/

/-- 2^32, the modulus of the C `uint32_t` arithmetic. -/
def U32 : Nat := 4294967296

/-- The error vocabulary the spec gives the baud planner. -/
inductive BaudError where
  | baudUnreachable
  deriving DecidableEq

/-- `baud_div = reference / (baud_rate * 8) - 1` in `uint32_t` arithmetic
(lines 911 and 957): reference is 400 MHz above 3 Mbps and 25 MHz at or
below; the multiply and the subtraction wrap modulo 2^32. -/
def baud_divisor (baud_rate : Nat) : Nat :=
  if 3000000 < baud_rate then
    (400000000 / (baud_rate * 8 % U32) + (U32 - 1)) % U32
  else
    (25000000 / (baud_rate * 8 % U32) + (U32 - 1)) % U32

/-- CLK_CTRL register value built by `bm1398_set_baud_rate` (lines 940-943 and
966-968): base `0xF0000000` plus high-speed enable bit 16 above 3 Mbps, base
`0xF0000400` at or below; divisor packed as bits [27:24] (upper 4 bits) and
bits [12:8] (lower 5 bits).  `.ok v` is the CLK_CTRL value written; the
function has no divisor-range failure path. -/
def bm1398_set_baud_rate (baud_rate : Nat) : Except BaudError Nat :=
  let baud_div := baud_divisor baud_rate
  if 3000000 < baud_rate then
    Except.ok (0xF0000000 ||| (((baud_div >>> 5) &&& 0xF) <<< 24) |||
      ((baud_div &&& 0x1F) <<< 8) ||| 0x00010000)
  else
    Except.ok (0xF0000400 ||| (((baud_div >>> 5) &&& 0xF) <<< 24) |||
      ((baud_div &&& 0x1F) <<< 8))

/-! ## Chip enumeration (`bm1398_enumerate_chips`, lines 393-437) -/

/-- `interval = 256 / num_chips; if (interval < 1) interval = 1;`
(lines 408-409). -/
def address_interval (num_chips : Nat) : Nat :=
  let interval := 256 / num_chips
  if interval < 1 then 1 else interval

/-- The chip addresses assigned by the enumeration loop (lines 415-431):
`uint8_t addr = i * interval` for `i = 0 .. num_chips-1`; the `uint8_t`
store truncates modulo 256. -/
def enumerate_addresses (num_chips : Nat) : List Nat :=
  (List.range num_chips).map (fun i => i * address_interval num_chips % 256)

/-! ## Stage 2 configuration (`bm1398_configure_chain_stage2`, lines 642-851) -/

/-- The sub-operations of Stage 2 whose transport result the function inspects
or deliberately ignores, in source order.  `pllZero` stands for the four
PLL-parameter zeroing writes (lines 741-747) whose return values are not
checked at all. -/
inductive Stage2Step where
  | diodeMux
  | chainInactive
  | lowBaud
  | enumerateChips
  | coreReset1
  | coreReset2
  | coreConfig
  | coreParam
  | ioDriver
  | pllZero
  | setFreq
  | highBaud
  | softReset
  | clkCtrl
  | clockSelReset
  | timingParams
  | coreEnable
  | ticketMask
  | nonceOverflow
  deriving DecidableEq

/-- Control-flow model of `bm1398_configure_chain_stage2`, parameterized by
which sub-operations fail.  `none` models the error return `-1` (stage
aborted at the first failing critical step); `some w` models return `0` with
`w` the failing steps whose failure was only logged as a warning, in log
order.  The structure mirrors the source line by line: diode mux, chain
inactive, low baud, enumeration, the two core-config reset writes, core
config, core timing params are fatal; the IO-driver write (line 733) only
warns; the PLL-zeroing writes are ignored; `bm1398_set_frequency` failure
(line 752) only warns; the high baud write is fatal; the five broadcast
core-reset writes (soft reset, CLK_CTRL, clock-select reset, timing params,
core enable) only warn; the final ticket mask is fatal; the nonce-overflow
disable (line 843) only warns. -/
def configure_chain_stage2 (fails : Stage2Step → Bool) : Option (List Stage2Step) :=
  if fails Stage2Step.diodeMux then none else
  if fails Stage2Step.chainInactive then none else
  if fails Stage2Step.lowBaud then none else
  if fails Stage2Step.enumerateChips then none else
  if fails Stage2Step.coreReset1 then none else
  if fails Stage2Step.coreReset2 then none else
  if fails Stage2Step.coreConfig then none else
  if fails Stage2Step.coreParam then none else
  let w1 := if fails Stage2Step.ioDriver then [Stage2Step.ioDriver] else []
  let w2 := if fails Stage2Step.setFreq then [Stage2Step.setFreq] else []
  if fails Stage2Step.highBaud then none else
  let w3 := if fails Stage2Step.softReset then [Stage2Step.softReset] else []
  let w4 := if fails Stage2Step.clkCtrl then [Stage2Step.clkCtrl] else []
  let w5 := if fails Stage2Step.clockSelReset then [Stage2Step.clockSelReset] else []
  let w6 := if fails Stage2Step.timingParams then [Stage2Step.timingParams] else []
  let w7 := if fails Stage2Step.coreEnable then [Stage2Step.coreEnable] else []
  if fails Stage2Step.ticketMask then none else
  let w8 := if fails Stage2Step.nonceOverflow then [Stage2Step.nonceOverflow] else []
  some (w1 ++ w2 ++ w3 ++ w4 ++ w5 ++ w6 ++ w7 ++ w8)

/-! ## Work encoding (`bm1398_send_work`, lines 1190-1254) -/

/-- The in-memory bytes of a little-endian `uint32_t` field holding
`__builtin_bswap32 v`: the big-endian byte decomposition of `v`. -/
def be32_bytes (v : Nat) : List Nat :=
  [(v >>> 24) &&& 0xFF, (v >>> 16) &&& 0xFF, (v >>> 8) &&& 0xFF, v &&& 0xFF]

/-- Read a big-endian 32-bit value back from four bytes. -/
def be32_value (l : List Nat) : Nat :=
  l.getD 0 0 * 16777216 + l.getD 1 0 * 65536 + l.getD 2 0 * 256 + l.getD 3 0

/-- The whole-packet word swap of lines 1226-1229: `__builtin_bswap32` on
each aligned 32-bit word, i.e. every aligned group of four bytes reversed. -/
def swap_words : List Nat → List Nat
  | a :: b :: c :: d :: rest => d :: c :: b :: a :: swap_words rest
  | l => l

/-- The 148-byte wire packet built by `bm1398_send_work`: `work_type 0x01`,
`chain_id = chain | 0x80` (a `uint8_t` store), two reserved zero bytes, the
field `work_id = __builtin_bswap32(work_id << 3)` — whose in-memory bytes are
the big-endian bytes of `(work_id << 3) mod 2^32` — then the 12-byte header
tail and the four 32-byte midstates; finally every 32-bit word of the struct
is byte-swapped in place. -/
def send_work_packet (chain work_id : Nat) (work_data m0 m1 m2 m3 : List Nat) :
    List Nat :=
  swap_words ([0x01, (chain ||| 0x80) % 256, 0x00, 0x00] ++
    (be32_bytes ((work_id <<< 3) % 4294967296) ++
      (work_data ++ (m0 ++ (m1 ++ (m2 ++ m3))))))

/-- Decoder: un-byte-swap every 32-bit word of the packet, read the work-id
field back from bytes 4..7 (big-endian) and undo the left shift by 3. -/
def decode_work_id (pkt : List Nat) : Nat :=
  be32_value (((swap_words pkt).drop 4).take 4) >>> 3

/-- Decoder: un-byte-swap, then read the 12-byte header tail (bytes 8..19). -/
def decode_work_data (pkt : List Nat) : List Nat :=
  ((swap_words pkt).drop 8).take 12

/-- Decoder: un-byte-swap, then read midstate `k` (32 bytes from offset
`20 + 32 k`). -/
def decode_midstate (pkt : List Nat) (k : Nat) : List Nat :=
  ((swap_words pkt).drop (20 + 32 * k)).take 32

/-! ## Nonce decoding (`bm1398_read_nonce`, lines 1279-1309) -/

/-- The output record `nonce_response_t` (bm1398_asic.h lines 121-127). -/
structure NonceResponse where
  nonce : Nat
  chain_id : Nat
  chip_id : Nat
  core_id : Nat
  work_id : Nat
  deriving DecidableEq

/-- `bm1398_read_nonce` on the two response words read from the FIFO
(`nonce_low` at RETURN_NONCE, `nonce_high` at the following word): if bit 7
of the low word (`NONCE_INDICATOR`, header line 49) is set, it fills the
record — nonce = full low word, chain id = `NONCE_CHAIN_NUMBER` = low 4 bits,
work id = `(nonce_high >> 16) & 0x7FFF`, chip/core zeroed — and returns 1;
otherwise it returns 0 and the caller's record `prev` is left untouched. -/
def bm1398_read_nonce (nonce_low nonce_high : Nat) (prev : NonceResponse) :
    Nat × NonceResponse :=
  if nonce_low &&& 0x80 ≠ 0 then
    (1, { nonce := nonce_low, chain_id := nonce_low &&& 0xF, chip_id := 0,
          core_id := 0, work_id := (nonce_high >>> 16) &&& 0x7FFF })
  else
    (0, prev)

/-! ## FPGA indirect register map (lines 76-120) -/

/-- Modelled from the spec: `FPGA_REGISTER_MAP_SIZE` is defined in a header
that is not under `src/`; the spec fixes the table at 110 entries ("a fixed
110-entry lookup table"), matching the source comment "Both tables are
IDENTICAL (110 entries)". -/
def FPGA_REGISTER_MAP_SIZE : Nat := 110

/-- `FPGA_REG_SIZE` (bm1398_asic.h line 20): bytes in the mapped window. -/
def FPGA_REG_SIZE : Nat := 5120

/-- The initializer of `fpga_register_map` (lines 76-84) lists 108 word
offsets; C aggregate initialization zero-fills the remaining
`FPGA_REGISTER_MAP_SIZE - 108 = 2` entries. -/
def fpga_register_map : List Nat :=
  [0, 1, 2, 3, 4, 6, 7, 8, 9, 10, 11, 12, 13, 14, 15, 16,
   16, 32, 33, 34, 35, 36, 37, 38, 0, 48, 49, 60, 62, 63, 64, 65,
   66, 68, 69, 70, 71, 72, 73, 76, 77, 78, 80, 96, 97, 98, 99, 100,
   101, 102, 103, 104, 105, 106, 107, 108, 109, 110, 111, 112, 113, 114, 115, 116,
   117, 118, 119, 124, 125, 126, 127, 128, 129, 130, 132, 133, 134, 135, 136, 137,
   138, 139, 140, 141, 142, 143, 144, 145, 146, 147, 148, 149, 150, 151, 152, 153,
   154, 155, 156, 157, 158, 159, 164, 165, 166, 167, 168, 169] ++
  List.replicate 2 0

/-- `fpga_read_indirect` (lines 90-102) acting on a pure register state
`regs : word offset → value`.  An out-of-range logical index prints an error
and returns 0 without touching the window — modelled as `(0, true)`, the
Boolean recording that the error path ran; an in-range index silently reads
`regs[fpga_register_map[idx]]` — `(value, false)`. -/
def fpga_read_indirect (regs : Nat → Nat) (logical_index : Int) : Nat × Bool :=
  if logical_index < 0 ∨ (FPGA_REGISTER_MAP_SIZE : Int) ≤ logical_index then
    (0, true)
  else
    (regs (fpga_register_map.getD logical_index.toNat 0), false)

/-- `fpga_write_indirect` (lines 108-120): an out-of-range logical index
prints an error and leaves the window untouched (`(regs, true)`); an
in-range index updates `regs[fpga_register_map[idx]]`. -/
def fpga_write_indirect (regs : Nat → Nat) (logical_index : Int) (value : Nat) :
    (Nat → Nat) × Bool :=
  if logical_index < 0 ∨ (FPGA_REGISTER_MAP_SIZE : Int) ≤ logical_index then
    (regs, true)
  else
    (Function.update regs (fpga_register_map.getD logical_index.toNat 0) value, false)

end BM1398

namespace BM1398

/-! ## Theorems -/

/-- Helper: the extracted bit is at most 1. -/
theorem crc5_bit_le_one (data : List Nat) (i : Nat) : crc5_bit data i ≤ 1 :=
  Nat.and_le_right

/-- Helper: the two renderings of "the checksum's top (5th) bit differs from
the incoming bit" agree: `(crc & 0x10) != (bit << 4)` in the C source versus
`(crc >>> 4) &&& 1 ≠ bit` in the spec's words. -/
theorem crc5_top_bit_cond (crc bit : Nat) :
    (crc &&& 0x10 ≠ bit <<< 4) ↔ ((crc >>> 4) &&& 1 ≠ bit) := by
  have e1 : crc &&& 0x10 = crc / 16 % 2 * 16 := by
    have := Nat.and_two_pow crc 4
    simpa [Nat.toNat_testBit] using this
  have e2 : (crc >>> 4) &&& 1 = crc / 16 % 2 := by
    rw [Nat.and_one_is_mod, Nat.shiftRight_eq_div_pow]
  have e3 : bit <<< 4 = bit * 16 := by
    rw [Nat.shiftLeft_eq]
  rw [e1, e2, e3]
  omega

/-- C1: for every byte array and bit count, `bm1398_crc5` equals the 5-bit CRC
described by the spec (initial value `0x1F`, MSB-first byte-major bit order,
XOR-fold with polynomial `0x05` when the top checksum bit disagrees with the
incoming bit, mask to 5 bits after every step). -/
theorem crc5_matches_spec (data : List Nat) (bits : Nat) :
    bm1398_crc5 data bits = crc5_spec data bits := by
  unfold bm1398_crc5 crc5_spec
  congr 1
  funext crc i
  simp only [crc5_top_bit_cond crc (crc5_bit data i)]

set_option maxRecDepth 4000 in
/-- C2 counterexample: the CRC5 the code computes over the 32 bits of
`0x53 0x05 0x00 0x00` is `0x18`, not the `0x1C` the claim states, so the
chain-inactive frame ends in `0x18`. -/
theorem chain_inactive_crc_ne_0x1C :
    bm1398_crc5 chain_inactive_cmd 32 = 0x18 ∧ (0x18 : Nat) ≠ 0x1C := by
  constructor
  · decide
  · decide

set_option maxRecDepth 4000 in
/-- C2 amended: the CRC5 of the 32 bits of the chain-inactive command
`0x53 0x05 0x00 0x00` is `0x18`, so the frame built by
`bm1398_chain_inactive` is exactly the five bytes `0x53 0x05 0x00 0x00 0x18`. -/
theorem chain_inactive_frame_eq :
    bm1398_crc5 chain_inactive_cmd 32 = 0x18 ∧
      chain_inactive_frame = [0x53, 0x05, 0x00, 0x00, 0x18] := by
  constructor
  · decide
  · decide

/-- Helper: every target frequency selects the single verified divider set. -/
theorem pll_dividers_const (f : Nat) : pll_dividers f = ⟨0, 84, 1, 0⟩ := by
  unfold pll_dividers
  split <;> rfl

/-- Helper: the computed VCO is 2100 MHz for every target frequency (the
fallback reuses the 525 MHz dividers). -/
theorem vco_mhz_const (f : Nat) : vco_mhz f = 2100 := by
  rw [vco_mhz, pll_dividers_const f]
  norm_num

/-- Helper: `bm1398_set_frequency` writes `0x40540100` for every target. -/
theorem set_frequency_eval (f : Nat) :
    bm1398_set_frequency f = Except.ok 0x40540100 := by
  rw [bm1398_set_frequency, pll_dividers_const f, vco_mhz_const f]
  norm_num
  decide

/-- C3: at 525 MHz the dividers are reference 1, feedback 84, postdiv1 2,
postdiv2 1, the VCO is 25 * 84 / 1 = 2100 MHz, the PLL register value written
is `0x40540100` with the high-VCO-range bit 28 clear; and the operation fails
before the PLL write exactly for targets whose computed VCO leaves
[1600, 3200] MHz — a set that is empty because every target reuses the
525 MHz dividers, so the VCO is always 2100 MHz. -/
theorem set_frequency_525_and_vco_range :
    ((pll_dividers 525).refdiv_reg + 1 = 1 ∧ (pll_dividers 525).fbdiv_reg = 84 ∧
      (pll_dividers 525).postdiv1_reg + 1 = 2 ∧ (pll_dividers 525).postdiv2_reg + 1 = 1) ∧
    vco_mhz 525 = 25 * 84 / 1 ∧
    bm1398_set_frequency 525 = Except.ok 0x40540100 ∧
    0x40540100 &&& 0x10000000 = 0 ∧
    (∀ f : Nat, vco_mhz f = 2100) ∧
    (∀ f : Nat,
      (vco_mhz f < 1600 ∨ 3200 < vco_mhz f) ↔
        (∃ e, bm1398_set_frequency f = Except.error e)) := by
  refine ⟨?_, ?_, set_frequency_eval 525, by decide, vco_mhz_const, ?_⟩
  · rw [pll_dividers_const 525]
    exact ⟨rfl, rfl, rfl, rfl⟩
  · rw [vco_mhz_const 525]
    norm_num
  · intro f
    rw [vco_mhz_const f, set_frequency_eval f]
    norm_num
    intro e
    exact fun h => Except.noConfusion h

/-- Helper: field extraction from the high-speed CLK_CTRL word: for any 4-bit
upper divisor `u` and 5-bit lower divisor `l`, bits [27:24], [12:8] and [16]
of `0xF0000000 ||| (u <<< 24) ||| (l <<< 8) ||| 0x00010000` are `u`, `l`
and 1. -/
theorem clk_ctrl_fields_high :
    ∀ u < 16, ∀ l < 32,
      ((0xF0000000 ||| (u <<< 24) ||| (l <<< 8) ||| 0x00010000) >>> 24) &&& 0xF = u ∧
      ((0xF0000000 ||| (u <<< 24) ||| (l <<< 8) ||| 0x00010000) >>> 8) &&& 0x1F = l ∧
      ((0xF0000000 ||| (u <<< 24) ||| (l <<< 8) ||| 0x00010000) >>> 16) &&& 1 = 1 := by
  decide

/-- Helper: field extraction from the low-speed CLK_CTRL word: bits [27:24]
give `u` back, but the base value `0xF0000400` already has bit 10 set, so
bits [12:8] read back as `l ||| 4`; the high-speed bit 16 is 0. -/
theorem clk_ctrl_fields_low :
    ∀ u < 16, ∀ l < 32,
      ((0xF0000400 ||| (u <<< 24) ||| (l <<< 8)) >>> 24) &&& 0xF = u ∧
      ((0xF0000400 ||| (u <<< 24) ||| (l <<< 8)) >>> 8) &&& 0x1F = (l ||| 4) ∧
      ((0xF0000400 ||| (u <<< 24) ||| (l <<< 8)) >>> 16) &&& 1 = 0 := by
  decide

/-- C4 counterexample: at target 2400 baud the computed divisor is
`25000000 / (2400 * 8) - 1 = 1301`, which does not fit the 4-bit + 5-bit
divisor fields (1301 ≥ 2^9 = 512), yet `bm1398_set_baud_rate` does not fail:
it writes CLK_CTRL `0xF8001500`, whose fields hold the truncated divisor. -/
theorem set_baud_rate_2400_truncates :
    baud_divisor 2400 = 1301 ∧ ¬(1301 < 2 ^ 9) ∧
      bm1398_set_baud_rate 2400 = Except.ok 0xF8001500 := by
  refine ⟨by decide, by decide, by rfl⟩

/-- C4 amended: for every target baud rate in the range where the `uint32_t`
arithmetic does not wrap (0 < baud ≤ 50 Mbps), `bm1398_set_baud_rate`
computes the divisor as reference/(target*8) - 1 — 400 MHz reference above
3 Mbps, 25 MHz at or below — and always succeeds, packing the divisor
truncated to the 4-bit upper field (bits [27:24]) and the 5-bit lower field
(bits [12:8], which in low-speed mode also carries bit 2 of the base value
`0xF0000400`); there is no BaudUnreachable failure path for divisors that do
not fit. -/
theorem set_baud_rate_packs_truncated_divisor (baud_rate : Nat)
    (hpos : 0 < baud_rate) (hmax : baud_rate ≤ 50000000) :
    baud_divisor baud_rate =
      (if 3000000 < baud_rate then 400000000 else 25000000) / (baud_rate * 8) - 1 ∧
    ∃ v, bm1398_set_baud_rate baud_rate = Except.ok v ∧
      (v >>> 24) &&& 0xF = (baud_divisor baud_rate >>> 5) &&& 0xF ∧
      (v >>> 8) &&& 0x1F =
        ((baud_divisor baud_rate &&& 0x1F) ||| if 3000000 < baud_rate then 0 else 4) ∧
      (v >>> 16) &&& 1 = (if 3000000 < baud_rate then 1 else 0) := by
  have hu : (baud_divisor baud_rate >>> 5) &&& 0xF < 16 :=
    Nat.lt_succ_of_le Nat.and_le_right
  have hl : baud_divisor baud_rate &&& 0x1F < 32 :=
    Nat.lt_succ_of_le Nat.and_le_right
  constructor
  · unfold baud_divisor
    by_cases hb : 3000000 < baud_rate
    · have hwrap : baud_rate * 8 % U32 = baud_rate * 8 :=
        Nat.mod_eq_of_lt (by unfold U32; omega)
      have hq1 : 1 ≤ 400000000 / (baud_rate * 8) :=
        (Nat.one_le_div_iff (by omega)).mpr (by omega)
      have hq2 : 400000000 / (baud_rate * 8) ≤ 400000000 := Nat.div_le_self _ _
      rw [if_pos hb, if_pos hb, hwrap]
      unfold U32
      omega
    · have hble : baud_rate ≤ 3000000 := le_of_not_lt hb
      have hwrap : baud_rate * 8 % U32 = baud_rate * 8 :=
        Nat.mod_eq_of_lt (by unfold U32; omega)
      have hq1 : 1 ≤ 25000000 / (baud_rate * 8) :=
        (Nat.one_le_div_iff (by omega)).mpr (by omega)
      have hq2 : 25000000 / (baud_rate * 8) ≤ 25000000 := Nat.div_le_self _ _
      rw [if_neg hb, if_neg hb, hwrap]
      unfold U32
      omega
  · unfold bm1398_set_baud_rate
    by_cases hb : 3000000 < baud_rate
    · rw [if_pos hb]
      obtain ⟨e1, e2, e3⟩ := clk_ctrl_fields_high _ hu _ hl
      exact ⟨_, rfl, e1, by rw [e2, if_pos hb, Nat.or_zero], by rw [e3, if_pos hb]⟩
    · rw [if_neg hb]
      obtain ⟨e1, e2, e3⟩ := clk_ctrl_fields_low _ hu _ hl
      exact ⟨_, rfl, e1, by rw [e2, if_neg hb], by rw [e3, if_neg hb]⟩

/-- Helper: `isSome` of the Stage 2 outcome as a Boolean formula over the
critical steps. -/
theorem stage2_isSome_eq (fails : Stage2Step → Bool) :
    (configure_chain_stage2 fails).isSome =
      (!fails Stage2Step.diodeMux && !fails Stage2Step.chainInactive &&
       !fails Stage2Step.lowBaud && !fails Stage2Step.enumerateChips &&
       !fails Stage2Step.coreReset1 && !fails Stage2Step.coreReset2 &&
       !fails Stage2Step.coreConfig && !fails Stage2Step.coreParam &&
       !fails Stage2Step.highBaud && !fails Stage2Step.ticketMask) := by
  unfold configure_chain_stage2
  cases fails Stage2Step.diodeMux <;>
  cases fails Stage2Step.chainInactive <;>
  cases fails Stage2Step.lowBaud <;>
  cases fails Stage2Step.enumerateChips <;>
  cases fails Stage2Step.coreReset1 <;>
  cases fails Stage2Step.coreReset2 <;>
  cases fails Stage2Step.coreConfig <;>
  cases fails Stage2Step.coreParam <;>
  cases fails Stage2Step.highBaud <;>
  cases fails Stage2Step.ticketMask <;>
  rfl

/-- C5 counterexample: a failure in `bm1398_set_frequency` alone does not
abort Stage 2 — the stage completes (returns 0) with the frequency step
merely logged as a warning, contradicting the claim that a frequency failure
is sequencing-critical. -/
theorem stage2_freq_failure_not_fatal :
    configure_chain_stage2 (fun s => decide (s = Stage2Step.setFreq)) =
      some [Stage2Step.setFreq] := by
  rfl

/-- C5 amended: Stage 2 succeeds exactly when none of the critical steps
fail — diode mux, chain inactive, low baud, chip enumeration, the two
core-config reset writes, core config, core timing params, high baud, final
ticket mask; failures of the non-critical steps (IO driver strength,
frequency set, the five broadcast core-reset writes, nonce-overflow disable)
only log warnings and the stage continues, as shown by the run in which
exactly the IO-driver, frequency and nonce-overflow steps fail and the stage
still completes with those three warnings. -/
theorem stage2_critical_vs_warning :
    (∀ fails : Stage2Step → Bool,
      (configure_chain_stage2 fails).isSome = true ↔
        (fails Stage2Step.diodeMux = false ∧ fails Stage2Step.chainInactive = false ∧
         fails Stage2Step.lowBaud = false ∧ fails Stage2Step.enumerateChips = false ∧
         fails Stage2Step.coreReset1 = false ∧ fails Stage2Step.coreReset2 = false ∧
         fails Stage2Step.coreConfig = false ∧ fails Stage2Step.coreParam = false ∧
         fails Stage2Step.highBaud = false ∧ fails Stage2Step.ticketMask = false)) ∧
    configure_chain_stage2
        (fun s => decide (s = Stage2Step.ioDriver ∨ s = Stage2Step.setFreq ∨
          s = Stage2Step.nonceOverflow)) =
      some [Stage2Step.ioDriver, Stage2Step.setFreq, Stage2Step.nonceOverflow] := by
  constructor
  · intro fails
    rw [stage2_isSome_eq]
    simp [Bool.and_eq_true, and_assoc]
  · rfl

/-- Helper: for any population 1 ≤ n ≤ 128 the address stride `256 / n` is at
least 2, and `address_interval` returns it (the `< 1` fallback never fires). -/
theorem address_interval_eq (n : Nat) (h1 : 1 ≤ n) (h128 : n ≤ 128) :
    address_interval n = 256 / n ∧ 2 ≤ 256 / n := by
  have hq2 : 2 ≤ 256 / n := (Nat.le_div_iff_mul_le (by omega)).mpr (by omega)
  refine ⟨?_, hq2⟩
  unfold address_interval
  have hn : ¬(256 / n < 1) := Nat.not_lt.mpr (le_trans (by norm_num) hq2)
  simp [hn]

/-- Helper: every address `i * (256 / n)` assigned for `i < n ≤ 128` stays
below 256, so the `uint8_t` store never truncates. -/
theorem enumerate_address_lt (n : Nat) (h1 : 1 ≤ n) (h128 : n ≤ 128) :
    ∀ i, i < n → i * (256 / n) < 256 := by
  obtain ⟨m, rfl⟩ : ∃ m, n = m + 1 := ⟨n - 1, by omega⟩
  intro i hi
  have hq2 : 2 ≤ 256 / (m + 1) := (Nat.le_div_iff_mul_le (by omega)).mpr (by omega)
  have hmul : 256 / (m + 1) * (m + 1) ≤ 256 := Nat.div_mul_le_self 256 (m + 1)
  have hs : m * (256 / (m + 1)) + 256 / (m + 1) ≤ 256 := by
    rw [← Nat.succ_mul, Nat.mul_comm]
    exact hmul
  have hle : i * (256 / (m + 1)) ≤ m * (256 / (m + 1)) :=
    Nat.mul_le_mul_right _ (by omega)
  refine lt_of_le_of_lt (le_trans hle (Nat.le_sub_of_add_le hs)) ?_
  exact Nat.sub_lt (by norm_num) (lt_of_lt_of_le (by norm_num) hq2)

/-- C6: for every chip count n in [1, 128], enumeration assigns exactly n
addresses, the i-th being i times the common stride `max 1 (256 / n)`, all
below 256 and strictly increasing. -/
theorem enumerate_chips_addresses (n : Nat) (h1 : 1 ≤ n) (h128 : n ≤ 128) :
    (enumerate_addresses n).length = n ∧
    (∀ i, i < n → (enumerate_addresses n).getD i 0 = i * max 1 (256 / n) ∧
      i * max 1 (256 / n) < 256) ∧
    List.Pairwise (· < ·) (enumerate_addresses n) := by
  obtain ⟨hint, hq2⟩ := address_interval_eq n h1 h128
  have hmax : max 1 (256 / n) = 256 / n := max_eq_right (le_trans (by norm_num) hq2)
  refine ⟨by simp [enumerate_addresses], ?_, ?_⟩
  · intro i hi
    have hgd : (enumerate_addresses n).getD i 0 = i * address_interval n % 256 := by
      unfold enumerate_addresses
      rw [List.getD_eq_getElem?_getD, List.getElem?_map, List.getElem?_range hi]
      rfl
    refine ⟨?_, ?_⟩
    · rw [hgd, hint, Nat.mod_eq_of_lt (enumerate_address_lt n h1 h128 i hi), hmax]
    · rw [hmax]
      exact enumerate_address_lt n h1 h128 i hi
  · unfold enumerate_addresses
    rw [List.pairwise_map]
    refine List.Pairwise.imp_of_mem ?_ (List.pairwise_lt_range n)
    intro a b ha hb hab
    rw [List.mem_range] at ha hb
    rw [hint, Nat.mod_eq_of_lt (enumerate_address_lt n h1 h128 a ha),
        Nat.mod_eq_of_lt (enumerate_address_lt n h1 h128 b hb)]
    exact (Nat.mul_lt_mul_right (lt_of_lt_of_le (by norm_num) hq2)).mpr hab

/-- C6 witness: the stride invariant instantiated at the S19 Pro population
of 114 chips (stride 2, addresses 0, 2, ..., 226). -/
theorem enumerate_chips_addresses_witness :
    1 ≤ 114 ∧ 114 ≤ 128 ∧
      ((enumerate_addresses 114).length = 114 ∧
       (∀ i, i < 114 → (enumerate_addresses 114).getD i 0 = i * max 1 (256 / 114) ∧
         i * max 1 (256 / 114) < 256) ∧
       List.Pairwise (· < ·) (enumerate_addresses 114)) :=
  ⟨by decide, by decide, enumerate_chips_addresses 114 (by decide) (by decide)⟩

/-- Helper: the aligned four-byte reversal is an involution. -/
theorem swap_words_swap_words : ∀ l : List Nat, swap_words (swap_words l) = l
  | _ :: _ :: _ :: _ :: rest => by
      simp [swap_words, swap_words_swap_words rest]
  | [] => rfl
  | [_] => rfl
  | [_, _] => rfl
  | [_, _, _] => rfl

/-- Helper: masking with `0xFF` is reduction modulo 256. -/
theorem and_255_eq_mod (x : Nat) : x &&& 255 = x % 256 := by
  have h := Nat.and_pow_two_sub_one_eq_mod x 8
  norm_num at h
  exact h

/-- Helper: big-endian byte decomposition round-trips for 32-bit values. -/
theorem be32_roundtrip (v : Nat) (hv : v < 4294967296) :
    be32_value (be32_bytes v) = v := by
  simp only [be32_bytes, be32_value, and_255_eq_mod, Nat.shiftRight_eq_div_pow]
  norm_num
  omega

/-- Helper: un-swapping the packet recovers the pre-swap struct bytes. -/
theorem swap_send_work (chain work_id : Nat) (work_data m0 m1 m2 m3 : List Nat) :
    swap_words (send_work_packet chain work_id work_data m0 m1 m2 m3) =
      [0x01, (chain ||| 0x80) % 256, 0x00, 0x00] ++
        (be32_bytes ((work_id <<< 3) % 4294967296) ++
          (work_data ++ (m0 ++ (m1 ++ (m2 ++ m3))))) := by
  unfold send_work_packet
  exact swap_words_swap_words _

/-- Helper: extracting the middle block of an append by offset and length. -/
theorem drop_take_mid (A B C : List Nat) (n m : Nat) (hA : A.length = n)
    (hB : B.length = m) : ((A ++ (B ++ C)).drop n).take m = B := by
  rw [List.drop_left' hA, List.take_left' hB]

/-- Helper: extracting the final block of an append by offset and length. -/
theorem drop_take_end (A B : List Nat) (n m : Nat) (hA : A.length = n)
    (hB : B.length = m) : ((A ++ B).drop n).take m = B := by
  rw [List.drop_left' hA, ← hB, List.take_length]

/-- C7 counterexample: the work-id encoding is not lossless over 32-bit work
ids — the left shift by 3 inside `bm1398_send_work` drops the top three bits,
so the packets for work ids `2^29` and `0` are byte-identical and no decoder
can tell them apart. -/
theorem send_work_id_collision :
    send_work_packet 0 (2 ^ 29) (List.replicate 12 0) (List.replicate 32 0)
        (List.replicate 32 0) (List.replicate 32 0) (List.replicate 32 0) =
      send_work_packet 0 0 (List.replicate 12 0) (List.replicate 32 0)
        (List.replicate 32 0) (List.replicate 32 0) (List.replicate 32 0) ∧
    (2 ^ 29 : Nat) ≠ 0 := by
  refine ⟨by decide, by decide⟩

/-- C7 amended: for every job whose 32-bit work id has its top three bits
clear (work id < 2^29) — the shift by 3 loses them otherwise — together with
any 12-byte header tail and four 32-byte midstates, un-byte-swapping each
32-bit word of the 148-byte packet built by `bm1398_send_work` recovers the
work id (after undoing the documented big-endian shift-by-3 field encoding),
the header tail, and all four midstates unchanged; the word byte-swap itself
is self-inverse on every byte list. -/
theorem send_work_roundtrip (chain work_id : Nat)
    (work_data m0 m1 m2 m3 : List Nat) (hw : work_id < 2 ^ 29)
    (hwd : work_data.length = 12) (hm0 : m0.length = 32) (hm1 : m1.length = 32)
    (hm2 : m2.length = 32) (hm3 : m3.length = 32) :
    (∀ l : List Nat, swap_words (swap_words l) = l) ∧
    decode_work_id (send_work_packet chain work_id work_data m0 m1 m2 m3) = work_id ∧
    decode_work_data (send_work_packet chain work_id work_data m0 m1 m2 m3) = work_data ∧
    decode_midstate (send_work_packet chain work_id work_data m0 m1 m2 m3) 0 = m0 ∧
    decode_midstate (send_work_packet chain work_id work_data m0 m1 m2 m3) 1 = m1 ∧
    decode_midstate (send_work_packet chain work_id work_data m0 m1 m2 m3) 2 = m2 ∧
    decode_midstate (send_work_packet chain work_id work_data m0 m1 m2 m3) 3 = m3 := by
  refine ⟨swap_words_swap_words, ?_, ?_, ?_, ?_, ?_, ?_⟩
  · rw [decode_work_id, swap_send_work,
      drop_take_mid _ _ _ _ _ (by simp) (by simp [be32_bytes]),
      be32_roundtrip _ (Nat.mod_lt _ (by norm_num)),
      Nat.shiftLeft_eq, Nat.shiftRight_eq_div_pow]
    norm_num
    omega
  · rw [decode_work_data, swap_send_work, ← List.append_assoc]
    exact drop_take_mid _ _ _ _ _ (by simp [be32_bytes]) hwd
  · show ((swap_words _).drop (20 + 32 * 0)).take 32 = m0
    rw [swap_send_work, ← List.append_assoc, ← List.append_assoc]
    exact drop_take_mid _ _ _ _ _ (by simp [be32_bytes, hwd]) hm0
  · show ((swap_words _).drop (20 + 32 * 1)).take 32 = m1
    rw [swap_send_work, ← List.append_assoc, ← List.append_assoc,
      ← List.append_assoc]
    exact drop_take_mid _ _ _ _ _ (by simp [be32_bytes, hwd, hm0]) hm1
  · show ((swap_words _).drop (20 + 32 * 2)).take 32 = m2
    rw [swap_send_work, ← List.append_assoc, ← List.append_assoc,
      ← List.append_assoc, ← List.append_assoc]
    exact drop_take_mid _ _ _ _ _ (by simp [be32_bytes, hwd, hm0, hm1]) hm2
  · show ((swap_words _).drop (20 + 32 * 3)).take 32 = m3
    rw [swap_send_work, ← List.append_assoc, ← List.append_assoc,
      ← List.append_assoc, ← List.append_assoc, ← List.append_assoc]
    exact drop_take_end _ _ _ _ (by simp [be32_bytes, hwd, hm0, hm1, hm2]) hm3

/-- C8: `bm1398_read_nonce` returns 0 and hands back the caller's record
untouched whenever bit 7 of the low response word is clear — for every
combination of the remaining bits of both words and every prior record —
and when bit 7 is set it returns 1 with the chain id equal to the low 4 bits
of the low word and the work id equal to bits [30:16] of the high word. -/
theorem read_nonce_indicator_gating (nonce_low nonce_high : Nat)
    (prev : NonceResponse) :
    bm1398_read_nonce nonce_low nonce_high prev =
      if nonce_low.testBit 7 then
        (1, { nonce := nonce_low, chain_id := nonce_low % 16, chip_id := 0,
              core_id := 0, work_id := nonce_high / 65536 % 32768 })
      else (0, prev) := by
  have hc : (nonce_low &&& 0x80 ≠ 0) ↔ nonce_low.testBit 7 = true := by
    have h := Nat.and_two_pow nonce_low 7
    norm_num at h
    rw [h]
    cases nonce_low.testBit 7 <;> simp
  have h15 : nonce_low &&& 0xF = nonce_low % 16 := by
    have h := Nat.and_pow_two_sub_one_eq_mod nonce_low 4
    norm_num at h
    exact h
  have hwid : (nonce_high >>> 16) &&& 0x7FFF = nonce_high / 65536 % 32768 := by
    have h := Nat.and_pow_two_sub_one_eq_mod (nonce_high >>> 16) 15
    norm_num at h
    rw [h, Nat.shiftRight_eq_div_pow]
  unfold bm1398_read_nonce
  rw [h15, hwid]
  by_cases hb : nonce_low.testBit 7 = true
  · rw [if_pos (hc.mpr hb), if_pos hb]
  · rw [if_neg (fun h => hb (hc.mp h)), if_neg hb]

/-- C9: for every logical index outside [0, 110), the indirect accessors
fail fast without touching the register window: the write returns the window
unchanged with the error flag set, the read flags the error and yields only
the defensive fallback 0, and the read's outcome is independent of the
window contents (no access happens). -/
theorem indirect_out_of_range (regs : Nat → Nat) (value : Nat) (idx : Int)
    (h : idx < 0 ∨ (110 : Int) ≤ idx) :
    fpga_write_indirect regs idx value = (regs, true) ∧
    fpga_read_indirect regs idx = (0, true) ∧
    (∀ regs2 : Nat → Nat, fpga_read_indirect regs2 idx = fpga_read_indirect regs idx) := by
  have hcond : idx < 0 ∨ (FPGA_REGISTER_MAP_SIZE : Int) ≤ idx := by
    unfold FPGA_REGISTER_MAP_SIZE
    omega
  unfold fpga_write_indirect fpga_read_indirect
  rw [if_pos hcond]
  exact ⟨rfl, by rw [if_pos hcond], fun regs2 => by rw [if_pos hcond, if_pos hcond]⟩

/-- C9 witness: the out-of-range behavior at the first invalid index 110. -/
theorem indirect_out_of_range_witness :
    ((110 : Int) < 0 ∨ (110 : Int) ≤ 110) ∧
      (fpga_write_indirect (fun _ => 0) 110 7 = ((fun _ => 0), true) ∧
      fpga_read_indirect (fun _ => 0) 110 = (0, true) ∧
      (∀ regs2 : Nat → Nat,
        fpga_read_indirect regs2 110 = fpga_read_indirect (fun _ => 0) 110)) :=
  ⟨Or.inr (by norm_num),
    indirect_out_of_range (fun _ => 0) 7 110 (Or.inr (by norm_num))⟩

/-- C10: the register map has 110 entries, each a word offset of at most 169
and therefore strictly inside the `FPGA_REG_SIZE / 4 = 1280`-word window; for
every in-range logical index the indirect read and write touch exactly the
mapped offset, which lies inside the window. -/
theorem indirect_in_range_within_window (regs : Nat → Nat) (value : Nat)
    (idx : Int) (h0 : 0 ≤ idx) (h110 : idx < 110) :
    fpga_register_map.length = 110 ∧
    (∀ off ∈ fpga_register_map, off ≤ 169 ∧ off < FPGA_REG_SIZE / 4) ∧
    fpga_read_indirect regs idx =
      (regs (fpga_register_map.getD idx.toNat 0), false) ∧
    fpga_write_indirect regs idx value =
      (Function.update regs (fpga_register_map.getD idx.toNat 0) value, false) ∧
    fpga_register_map.getD idx.toNat 0 ≤ 169 ∧
    fpga_register_map.getD idx.toNat 0 < FPGA_REG_SIZE / 4 := by
  have hcond : ¬(idx < 0 ∨ (FPGA_REGISTER_MAP_SIZE : Int) ≤ idx) := by
    unfold FPGA_REGISTER_MAP_SIZE
    omega
  have hlt : idx.toNat < 110 := by omega
  have hall : ∀ i, i < 110 →
      fpga_register_map.getD i 0 ≤ 169 ∧ fpga_register_map.getD i 0 < 1280 := by
    decide
  have hsize : FPGA_REG_SIZE / 4 = 1280 := by norm_num [FPGA_REG_SIZE]
  refine ⟨by decide, by decide, ?_, ?_, ?_, ?_⟩
  · unfold fpga_read_indirect
    rw [if_neg hcond]
  · unfold fpga_write_indirect
    rw [if_neg hcond]
  · exact (hall idx.toNat hlt).1
  · rw [hsize]
    exact (hall idx.toNat hlt).2

/-- C10 witness: the in-range behavior at logical index 20, the TIMEOUT
register, which maps to word offset 35 (byte offset 0x08C). -/
theorem indirect_in_range_within_window_witness :
    (0 : Int) ≤ 20 ∧ (20 : Int) < 110 ∧
      (fpga_register_map.length = 110 ∧
      (∀ off ∈ fpga_register_map, off ≤ 169 ∧ off < FPGA_REG_SIZE / 4) ∧
      fpga_read_indirect (fun _ => 3) 20 =
        ((fun _ => 3 : Nat → Nat) (fpga_register_map.getD (20 : Int).toNat 0), false) ∧
      fpga_write_indirect (fun _ => 3) 20 9 =
        (Function.update (fun _ => 3) (fpga_register_map.getD (20 : Int).toNat 0) 9,
          false) ∧
      fpga_register_map.getD (20 : Int).toNat 0 ≤ 169 ∧
      fpga_register_map.getD (20 : Int).toNat 0 < FPGA_REG_SIZE / 4) :=
  ⟨by norm_num, by norm_num,
    indirect_in_range_within_window (fun _ => 3) 9 20 (by norm_num) (by norm_num)⟩

/-- C7 witness: the round-trip theorem applied at a concrete job — work id 5,
header tail of twelve `0x07` bytes, four distinct constant midstates. -/
theorem send_work_roundtrip_witness :
    5 < 2 ^ 29 ∧ (List.replicate 12 7).length = 12 ∧
      ((∀ l : List Nat, swap_words (swap_words l) = l) ∧
      decode_work_id (send_work_packet 1 5 (List.replicate 12 7)
        (List.replicate 32 1) (List.replicate 32 2) (List.replicate 32 3)
        (List.replicate 32 4)) = 5 ∧
      decode_work_data (send_work_packet 1 5 (List.replicate 12 7)
        (List.replicate 32 1) (List.replicate 32 2) (List.replicate 32 3)
        (List.replicate 32 4)) = List.replicate 12 7 ∧
      decode_midstate (send_work_packet 1 5 (List.replicate 12 7)
        (List.replicate 32 1) (List.replicate 32 2) (List.replicate 32 3)
        (List.replicate 32 4)) 0 = List.replicate 32 1 ∧
      decode_midstate (send_work_packet 1 5 (List.replicate 12 7)
        (List.replicate 32 1) (List.replicate 32 2) (List.replicate 32 3)
        (List.replicate 32 4)) 1 = List.replicate 32 2 ∧
      decode_midstate (send_work_packet 1 5 (List.replicate 12 7)
        (List.replicate 32 1) (List.replicate 32 2) (List.replicate 32 3)
        (List.replicate 32 4)) 2 = List.replicate 32 3 ∧
      decode_midstate (send_work_packet 1 5 (List.replicate 12 7)
        (List.replicate 32 1) (List.replicate 32 2) (List.replicate 32 3)
        (List.replicate 32 4)) 3 = List.replicate 32 4) :=
  ⟨by decide, by decide,
    send_work_roundtrip 1 5 (List.replicate 12 7) (List.replicate 32 1)
      (List.replicate 32 2) (List.replicate 32 3) (List.replicate 32 4)
      (by decide) (by decide) (by decide) (by decide) (by decide) (by decide)⟩

/-- C4 witness: the amended theorem instantiated at the low-speed enumeration
baud 115200 (divisor 26) — hypotheses discharged concretely. -/
theorem set_baud_rate_packs_truncated_divisor_witness :
    0 < 115200 ∧ 115200 ≤ 50000000 ∧
      (baud_divisor 115200 =
        (if 3000000 < 115200 then 400000000 else 25000000) / (115200 * 8) - 1 ∧
      ∃ v, bm1398_set_baud_rate 115200 = Except.ok v ∧
        (v >>> 24) &&& 0xF = (baud_divisor 115200 >>> 5) &&& 0xF ∧
        (v >>> 8) &&& 0x1F =
          ((baud_divisor 115200 &&& 0x1F) ||| if 3000000 < 115200 then 0 else 4) ∧
        (v >>> 16) &&& 1 = (if 3000000 < 115200 then 1 else 0)) :=
  ⟨by decide, by decide,
    set_baud_rate_packs_truncated_divisor 115200 (by decide) (by decide)⟩

end BM1398
